import Mathlib

set_option maxRecDepth 100000

/-!
Verification development for the StarkEx signature pipeline of the astrade
backend.  The Python sources under
`backend/app/services/extended/signature_service.py`,
`backend/app/services/extended/cavos_integration.py` and
`backend/stark-crypto-consolidated/python/fast_stark_crypto/lib.py`
are shallowly embedded below: Python strings become lists of characters,
Python ints become `Int`/`Nat`, `Decimal` values become `Rat`, and raising
code returns `Except PyExc`.
-/

/-- Python strings are modelled as lists of characters. -/
abbrev PyStr := List Char

/-- Coerce a Lean string literal to the embedded Python string type. -/
def pyOf (s : String) : PyStr := s.toList

/-- Value of a hexadecimal digit character, as accepted by Python
`int(s, 16)` (both cases); `none` for a non-hex character. -/
def hexVal? (c : Char) : Option Nat :=
  if 48 ≤ c.toNat ∧ c.toNat ≤ 57 then some (c.toNat - 48)
  else if 97 ≤ c.toNat ∧ c.toNat ≤ 102 then some (c.toNat - 87)
  else if 65 ≤ c.toNat ∧ c.toNat ≤ 70 then some (c.toNat - 55)
  else none

/-- Hex digit value with default 0 (used only on strings already known to
consist of hex digits). -/
def hexValD (c : Char) : Nat := (hexVal? c).getD 0

/-- Lowercase hexadecimal digit character for a value below 16, as produced
by Python `hex()` and `hexdigest()`. -/
def hexChar : Nat → Char
  | 0 => '0' | 1 => '1' | 2 => '2' | 3 => '3' | 4 => '4'
  | 5 => '5' | 6 => '6' | 7 => '7' | 8 => '8' | 9 => '9'
  | 10 => 'a' | 11 => 'b' | 12 => 'c' | 13 => 'd' | 14 => 'e'
  | _ => 'f'

/-- Hexadecimal digits of a natural number, least significant first
(structural recursion on a fuel argument so that the kernel can evaluate
it; the fuel is always sufficient, see `hexDigitsRevAux_spec`). -/
def hexDigitsRevAux : Nat → Nat → List Char
  | 0, _ => []
  | fuel + 1, n =>
    if n < 16 then [hexChar n]
    else hexChar (n % 16) :: hexDigitsRevAux fuel (n / 16)

/-- Hexadecimal digits of a natural number, least significant first. -/
def hexDigitsRev (n : Nat) : List Char := hexDigitsRevAux (n + 1) n

/-- Minimal lowercase hexadecimal digits of a natural number, most
significant first (the digits of Python `hex(n)` after the `0x`). -/
def hexDigits (n : Nat) : List Char := (hexDigitsRev n).reverse

/-- Python `hex(n)` for a non-negative integer: `0x` followed by minimal
lowercase digits. -/
def pyHex (n : Nat) : PyStr := '0' :: 'x' :: hexDigits n

/-- Decimal digits of a natural number, least significant first, with the
same fuel discipline as `hexDigitsRevAux`. -/
def decDigitsRevAux : Nat → Nat → List Char
  | 0, _ => []
  | fuel + 1, n =>
    if n < 10 then [Char.ofNat (48 + n)]
    else Char.ofNat (48 + n % 10) :: decDigitsRevAux fuel (n / 10)

/-- Python `str(n)` for a natural number. -/
def pyStrNat (n : Nat) : PyStr := (decDigitsRevAux (n + 1) n).reverse

/-- Python `str(n)` for an integer (decimal, with a leading minus sign for
negative values). -/
def pyStrInt (n : Int) : PyStr :=
  if n < 0 then '-' :: pyStrNat n.natAbs else pyStrNat n.natAbs

/-- Python `s.replace` of the substring `0x` by the empty string: remove
every leftmost, non-overlapping occurrence of `0x`, as done by
`normalize_public_key` and the private-key cleaning code in
`signature_service.py`. -/
def strip0x : PyStr → PyStr
  | [] => []
  | [c] => [c]
  | c1 :: c2 :: rest =>
    if c1 = '0' ∧ c2 = 'x' then strip0x rest
    else c1 :: strip0x (c2 :: rest)

/-- Optional `0x`/`0X` head accepted by Python `int(s, 16)`. -/
def dropHexHead : PyStr → PyStr
  | '0' :: 'x' :: rest => rest
  | '0' :: 'X' :: rest => rest
  | l => l

/-- Accumulating base-16 digit fold. -/
def parseHexAcc (a : Nat) (l : PyStr) : Nat :=
  l.foldl (fun acc c => 16 * acc + hexValD c) a

/-- Python `int(s, 16)` restricted to the shapes reachable in this service:
an optional `0x`/`0X` head followed by a non-empty run of hex digits
(`none` models the `ValueError` raised on anything else; signs, embedded
underscores and surrounding whitespace are not produced by any caller
modelled here). -/
def pyIntHex (l : PyStr) : Option Nat :=
  let l' := dropHexHead l
  if l' ≠ [] ∧ l'.all fun c => (hexVal? c).isSome then some (parseHexAcc 0 l')
  else none

example : pyIntHex (pyOf "0x1a") = some 26 := by decide
example : pyIntHex (pyOf "001A") = some 26 := by decide
example : pyIntHex (pyOf "") = none := by decide
example : pyIntHex (pyOf "0x") = none := by decide
example : pyHex 26 = pyOf "0x1a" := by decide
example : strip0x (pyOf "00xx1") = pyOf "0x1" := by decide
example : pyStrInt (-43445117) = pyOf "-43445117" := by decide

/-!
SHA-256, as used by the hashlib-based fallback implementations that are
the live definitions of `get_selector_from_name`,
`compute_hash_on_elements`, `pedersen_hash` and the final fallback branch
of `stark_sign` in `signature_service.py` (the starknet_py imports are
commented out in the source, so these fallbacks are the active code).
-/

/-- Truncate to a 32-bit word. -/
def w32 (n : Nat) : Nat := n % 4294967296

/-- Rotate a 32-bit word right by `k` bits. -/
def rotr32 (x k : Nat) : Nat := w32 ((x >>> k) ||| (x <<< (32 - k)))

/-- SHA-256 big sigma 0. -/
def bsig0 (x : Nat) : Nat := rotr32 x 2 ^^^ rotr32 x 13 ^^^ rotr32 x 22

/-- SHA-256 big sigma 1. -/
def bsig1 (x : Nat) : Nat := rotr32 x 6 ^^^ rotr32 x 11 ^^^ rotr32 x 25

/-- SHA-256 small sigma 0. -/
def ssig0 (x : Nat) : Nat := rotr32 x 7 ^^^ rotr32 x 18 ^^^ (x >>> 3)

/-- SHA-256 small sigma 1. -/
def ssig1 (x : Nat) : Nat := rotr32 x 17 ^^^ rotr32 x 19 ^^^ (x >>> 10)

/-- SHA-256 choice function. -/
def shaCh (x y z : Nat) : Nat := (x &&& y) ^^^ ((x ^^^ 4294967295) &&& z)

/-- SHA-256 majority function. -/
def shaMaj (x y z : Nat) : Nat := (x &&& y) ^^^ (x &&& z) ^^^ (y &&& z)

/-- SHA-256 round constants. -/
def shaK : List Nat :=
  [1116352408, 1899447441, 3049323471, 3921009573, 961987163,
   1508970993, 2453635748, 2870763221, 3624381080, 310598401,
   607225278, 1426881987, 1925078388, 2162078206, 2614888103,
   3248222580, 3835390401, 4022224774, 264347078, 604807628,
   770255983, 1249150122, 1555081692, 1996064986, 2554220882,
   2821834349, 2952996808, 3210313671, 3336571891, 3584528711,
   113926993, 338241895, 666307205, 773529912, 1294757372,
   1396182291, 1695183700, 1986661051, 2177026350, 2456956037,
   2730485921, 2820302411, 3259730800, 3345764771, 3516065817,
   3600352804, 4094571909, 275423344, 430227734, 506948616,
   659060556, 883997877, 958139571, 1322822218, 1537002063,
   1747873779, 1955562222, 2024104815, 2227730452, 2361852424,
   2428436474, 2756734187, 3204031479, 3329325298]

/-- SHA-256 initial hash state. -/
def shaH0 : List Nat :=
  [1779033703,
   3144134277,
   1013904242,
   2773480762,
   1359893119,
   2600822924,
   528734635,
   1541459225]

/-- Big-endian 8-byte rendering of a 64-bit value. -/
def be64 (n : Nat) : List Nat :=
  [56, 48, 40, 32, 24, 16, 8, 0].map fun i => (n >>> i) % 256

/-- Big-endian 4-byte rendering of a 32-bit word. -/
def be32 (n : Nat) : List Nat :=
  [(n >>> 24) % 256, (n >>> 16) % 256, (n >>> 8) % 256, n % 256]

/-- SHA-256 padding: append the 0x80 marker, zero bytes up to 56 mod 64,
and the 64-bit big-endian bit length. -/
def shaPad (msg : List Nat) : List Nat :=
  let L := msg.length
  msg ++ (128 :: List.replicate ((119 - L % 64) % 64) 0) ++ be64 (8 * L)

/-- Group bytes into big-endian 32-bit words. -/
def bytesToWords : List Nat → List Nat
  | a :: b :: c :: d :: rest => (((a * 256 + b) * 256 + c) * 256 + d) :: bytesToWords rest
  | _ => []

/-- Extend the 16 block words to the 64-entry message schedule. -/
def shaExtend (w : List Nat) : List Nat :=
  (List.range 48).foldl
    (fun ws i =>
      ws ++ [w32 (ssig1 (ws.getD (i + 14) 0) + ws.getD (i + 9) 0 +
                  ssig0 (ws.getD (i + 1) 0) + ws.getD i 0)])
    w

/-- One SHA-256 compression round; the state is the 8-word list
`[a, b, c, d, e, f, g, h]`. -/
def shaRound (st : List Nat) (kw : Nat × Nat) : List Nat :=
  match st with
  | [a, b, c, d, e, f, g, h] =>
    let t1 := w32 (h + bsig1 e + shaCh e f g + kw.1 + kw.2)
    let t2 := w32 (bsig0 a + shaMaj a b c)
    [w32 (t1 + t2), a, b, c, w32 (d + t1), e, f, g]
  | st => st

/-- Process one 64-byte block. -/
def shaBlock (h : List Nat) (block : List Nat) : List Nat :=
  let st := (shaK.zip (shaExtend (bytesToWords block))).foldl shaRound h
  (h.zip st).map fun p => w32 (p.1 + p.2)

/-- Split a byte list into 64-byte chunks (fuel-based for kernel
evaluation; the fuel is always sufficient). -/
def chunk64Aux : Nat → List Nat → List (List Nat)
  | 0, _ => []
  | _, [] => []
  | fuel + 1, l => l.take 64 :: chunk64Aux fuel (l.drop 64)

/-- SHA-256 digest (32 bytes) of a byte list. -/
def sha256 (msg : List Nat) : List Nat :=
  ((chunk64Aux (msg.length + 1) (shaPad msg)).foldl shaBlock shaH0).foldr
    (fun wd acc => be32 wd ++ acc) []

/-- Python `hashlib.sha256(b).hexdigest()`: 64 lowercase hex characters. -/
def sha256hex (msg : List Nat) : PyStr :=
  sha256 msg |>.foldr (fun b acc => hexChar (b / 16) :: hexChar (b % 16) :: acc) []

/-- Python `s.encode()` for the ASCII strings appearing in this service. -/
def pyEncode (s : PyStr) : List Nat := s.map Char.toNat

example : sha256hex (pyEncode (pyOf "abc")) =
    pyOf "ba7816bf8f01cfea414140de5dae2223b00361a396177a9cb410ff61f20015ad" := by decide
example : sha256hex (pyEncode (pyOf "")) =
    pyOf "e3b0c44298fc1c149afbf4c8996fb92427ae41e4649b934ca495991b7852b855" := by decide

/-!
Embedding of the module-level fallbacks and of `stark_sign` from
`backend/app/services/extended/signature_service.py`.
-/

/-- Python exceptions relevant to this service. -/
inductive PyExc where
  | valueError : PyStr → PyExc
  | nameError : PyStr → PyExc
  | keyError : PyStr → PyExc
  | exception : PyStr → PyExc
deriving DecidableEq

/-- Python `str(e)` for the exceptions above. -/
def PyExc.message : PyExc → PyStr
  | .valueError m => m
  | .nameError m => m
  | .keyError m => m
  | .exception m => m

/-- Fallback `get_selector_from_name` (signature_service.py lines 32-35):
first 8 hex characters of the SHA-256 of the name, parsed base 16. -/
def get_selector_from_name (name : PyStr) : Nat :=
  parseHexAcc 0 ((sha256hex (pyEncode name)).take 8)

/-- Fallback `compute_hash_on_elements` (signature_service.py lines 37-41):
SHA-256 of the concatenated decimal renderings of the elements, first 8
hex characters parsed base 16. -/
def compute_hash_on_elements (elements : List Int) : Nat :=
  parseHexAcc 0 ((sha256hex (pyEncode ((elements.map pyStrInt).foldr (· ++ ·) []))).take 8)

/-- Fallback `pedersen_hash` (signature_service.py lines 43-47): SHA-256 of
the concatenated decimal renderings of the two inputs, first 8 hex
characters parsed base 16. -/
def pedersen_hash (a b : Int) : Nat :=
  parseHexAcc 0 ((sha256hex (pyEncode (pyStrInt a ++ pyStrInt b))).take 8)

/-- Final fallback branch of `stark_sign` (signature_service.py lines
72-83): SHA-256 of the concatenated decimal renderings of the message hash
and the private key; the first and last 32 hex characters, parsed base 16
and reduced modulo 2 to the 251, give r and s. -/
def fallbackSign (message_hash private_key : Int) : Nat × Nat :=
  let hr := sha256hex (pyEncode (pyStrInt message_hash ++ pyStrInt private_key))
  (parseHexAcc 0 (hr.take 32) % 2 ^ 251, parseHexAcc 0 (hr.drop 32) % 2 ^ 251)

/-- Embedding of `stark_sign` (signature_service.py lines 50-83).  The two
external curve providers are black boxes, so their outcomes are inputs:
`fastRes` is the result of `fast_stark_crypto.sign` (`none` when that call
raises, which is also the effective outcome when `STARK_CRYPTO_AVAILABLE`
is false), and `x10Res` is the result of `x10.utils.starkex.sign` (`none`
when the import or the call raises).  The `Except` codomain records that a
Python function can raise; the body of `stark_sign` never does, because
its final `except` arm returns the hashlib-derived fallback pair. -/
def stark_sign (starkAvail : Bool) (fastRes x10Res : Option (Nat × Nat))
    (message_hash private_key : Int) : Except PyExc (Nat × Nat) :=
  match (if starkAvail then fastRes else none) with
  | some rs => .ok rs
  | none =>
    match x10Res with
    | some rs => .ok rs
    | none => .ok (fallbackSign message_hash private_key)

example : get_selector_from_name (pyOf "REGISTER") = 1778043305 := by decide
example : pedersen_hash 1 2 = 1800524849 := by decide


/-!
Python Decimal values, as used by `generate_starkex_order_signature`.
A value built there from a decimal string is a mantissa times a power of
ten; multiplication of such values is exact (the products appearing in
this service stay far below the 28 significant digits of the default
Decimal context), `int()` truncates toward zero, and Python `round()`
rounds half to even.
-/

/-- Exact decimal number: `mant` divided by ten to the `exp`. -/
structure Dec where
  mant : Int
  exp : Nat
deriving DecidableEq

/-- Decimal multiplication (exact). -/
def Dec.mul (a b : Dec) : Dec := ⟨a.mant * b.mant, a.exp + b.exp⟩

/-- Decimal value of an integer. -/
def Dec.ofInt (n : Int) : Dec := ⟨n, 0⟩

/-- Python `int()` on a Decimal: truncation toward zero. -/
def Dec.intPart (a : Dec) : Int := Int.tdiv a.mant (10 ^ a.exp)

/-- Python `round()` on a Decimal: round half to even. -/
def Dec.roundHalfEven (a : Dec) : Int :=
  let d : Int := 10 ^ a.exp
  let f := Int.fdiv a.mant d
  let r := a.mant - f * d
  if 2 * r < d then f
  else if d < 2 * r then f + 1
  else if f % 2 = 0 then f else f + 1

/-- Whether a Decimal value is non-negative. -/
def Dec.nonneg (a : Dec) : Prop := 0 ≤ a.mant

instance (a : Dec) : Decidable a.nonneg := inferInstanceAs (Decidable (0 ≤ a.mant))

example : Dec.intPart ⟨-7, 0⟩ = -7 := by decide
example : Dec.intPart ⟨-75, 1⟩ = -7 := by decide
example : Dec.intPart ⟨75, 1⟩ = 7 := by decide
example : Dec.roundHalfEven ⟨25, 1⟩ = 2 := by decide
example : Dec.roundHalfEven ⟨35, 1⟩ = 4 := by decide
example : Dec.roundHalfEven ⟨-25, 1⟩ = -2 := by decide
example : Dec.roundHalfEven ⟨21723417, 3⟩ = 21723 := by decide
example : Dec.roundHalfEven ⟨21723917, 3⟩ = 21724 := by decide

/-!
Embedding of the `ExtendedSignatureService` methods from
`backend/app/services/extended/signature_service.py`.
-/

/-- Lift the result of `int(s, 16)` into the exception monad: a failed
parse is a `ValueError`. -/
def hexOrValueError (o : Option Nat) : Except PyExc Nat :=
  match o with
  | some n => .ok n
  | none => .error (.valueError (pyOf "invalid literal for int with base 16"))

/-- The `KeyPair` object of starknet_py, as the dead success path would
produce it.  The name `KeyPair` is undefined at module scope in
`signature_service.py`: its import (line 22) is commented out and, unlike
`StarknetChainId`, `get_selector_from_name`, `compute_hash_on_elements`
and `pedersen_hash`, no fallback definition is provided, so evaluating
`KeyPair.from_private_key(...)` raises `NameError`. -/
structure KeyPairObj where
  private_key : Nat
  public_key : Nat

/-- Evaluation of `KeyPair.from_private_key(...)` in
`signature_service.py`: always a `NameError`, since the name `KeyPair` is
unbound in that module (see `KeyPairObj`). -/
def KeyPair_from_private_key (_pk : Nat) : Except PyExc KeyPairObj :=
  .error (.nameError (pyOf "name KeyPair is not defined"))

/-- Embedding of `ExtendedSignatureService.normalize_public_key`
(signature_service.py lines 104-121): remove `0x` occurrences, parse as a
base-16 integer, re-render with Python `hex()`; `none` is the
`ValueError` raised on a non-hex argument. -/
def normalize_public_key (public_key : PyStr) : Option PyStr :=
  (pyIntHex (strip0x public_key)).map pyHex

/-- Message-hash construction of
`generate_extended_onboarding_signature` (signature_service.py lines
169-188): the hashed element list is
`[account_index 0, account_address_felt, stark_public_key_felt,
tos_accepted 1, timestamp, selector of REGISTER]`, reduced by the
fallback `compute_hash_on_elements`.  The wall-clock timestamp is one of
the hashed elements. -/
def onboardingMessageHash (account_address_felt stark_public_key_felt timestamp : Int) :
    Nat :=
  compute_hash_on_elements
    [0, account_address_felt, stark_public_key_felt, 1, timestamp,
     (get_selector_from_name (pyOf "REGISTER") : Int)]

/-- Embedding of
`ExtendedSignatureService.generate_extended_onboarding_signature`
(signature_service.py lines 123-222).  `now` is the value of
`int(time.time())` during the call; the provider outcomes parameterize
`stark_sign` as described there.  The returned tuple is
`(success, signature_r, signature_s, error_message)`. -/
def generate_extended_onboarding_signature (now : Int) (starkAvail : Bool)
    (fastRes x10Res : Option (Nat × Nat))
    (private_key account_address stark_public_key : PyStr) (_network : PyStr) :
    Bool × PyStr × PyStr × PyStr :=
  let body : Except PyExc (Nat × Nat) := do
    let private_key_int ← hexOrValueError (pyIntHex (strip0x private_key))
    let key_pair ← KeyPair_from_private_key private_key_int
    let _normalized_provided_key ← hexOrValueError (pyIntHex (strip0x stark_public_key))
    let account_address_felt ← hexOrValueError (pyIntHex account_address)
    let stark_public_key_felt ← hexOrValueError (pyIntHex stark_public_key)
    let message_hash := onboardingMessageHash account_address_felt stark_public_key_felt now
    stark_sign starkAvail fastRes x10Res message_hash key_pair.private_key
  match body with
  | .ok (r, s) => (true, pyHex r, pyHex s, [])
  | .error (.valueError m) => (false, [], [], pyOf "Invalid key format: " ++ m)
  | .error e => (false, [], [], pyOf "Signature generation failed: " ++ e.message)

/-- Embedding of
`ExtendedSignatureService.generate_key_registration_signature`
(signature_service.py lines 253-302).  Every exception is caught by the
single `except Exception` arm. -/
def generate_key_registration_signature (starkAvail : Bool)
    (fastRes x10Res : Option (Nat × Nat))
    (private_key account_address stark_public_key : PyStr) (_network : PyStr) :
    Bool × PyStr × PyStr × PyStr :=
  let body : Except PyExc (Nat × Nat) := do
    let private_key_int ← hexOrValueError (pyIntHex (strip0x private_key))
    let key_pair ← KeyPair_from_private_key private_key_int
    let account_address_int ← hexOrValueError (pyIntHex account_address)
    let stark_public_key_int ← hexOrValueError (pyIntHex stark_public_key)
    let message_hash := pedersen_hash account_address_int stark_public_key_int
    stark_sign starkAvail fastRes x10Res message_hash key_pair.private_key
  match body with
  | .ok (r, s) => (true, pyHex r, pyHex s, [])
  | .error e => (false, [], [], pyOf "Key registration signature failed: " ++ e.message)

/-- Hard-coded base asset ID used by `generate_starkex_order_signature`
(signature_service.py line 336, the BTC-6 ID). -/
def BTC_ASSET_ID : Nat := 0x4254432d3600000000000000000000

/-- Hard-coded quote and fee asset ID used by
`generate_starkex_order_signature` (signature_service.py line 337, the
USDT ID). -/
def USDT_ASSET_ID : Nat := 0x31857064564ed0ff978e687456963cba09c2c6985d8f9300a1de4962fafa054

/-- Hard-coded user public key hashed by
`generate_starkex_order_signature` (signature_service.py line 364). -/
def HARDCODED_USER_PUBLIC_KEY : Nat :=
  0x24e50fe6d5247d20fedc23889c012c556eee175a398c355903b742b9c545f7f

/-- Order parameters dictionary of `generate_starkex_order_signature`,
after the defaulting `.get` calls of lines 319-333 (except for
`expiry_timestamp`, whose default involves the clock and is kept as an
option here). -/
structure OrderParams where
  market : PyStr
  side : PyStr
  qty : Dec
  price : Dec
  nonce : Int
  position_id : Int
  expiry_timestamp : Option Int
  fee_rate : Dec
deriving DecidableEq

/-- Python `s.upper()` for the ASCII side strings. -/
def pyUpper (s : PyStr) : PyStr := s.map Char.toUpper

/-- Signed base and quote amounts of `generate_starkex_order_signature`
(signature_service.py lines 345-355): micro-unit truncation of `qty` and
`price * qty`, then sign selection by side. -/
def starkexAmounts (side : PyStr) (qty price : Dec) : Int × Int :=
  let base_amount_micro := (qty.mul (Dec.ofInt 1000000)).intPart
  let quote_amount_micro := ((price.mul qty).mul (Dec.ofInt 1000000)).intPart
  if pyUpper side = pyOf "BUY" then (base_amount_micro, -quote_amount_micro)
  else (-base_amount_micro, quote_amount_micro)

/-- Fee amount of `generate_starkex_order_signature` (signature_service.py
line 358): `int(round(abs(final_quote_amount) * fee_rate))`. -/
def starkexFeeAmount (final_quote_amount : Int) (fee_rate : Dec) : Int :=
  ((Dec.ofInt final_quote_amount.natAbs).mul fee_rate).roundHalfEven

/-- Argument record of the order-message-hash call
(signature_service.py lines 390-405). -/
structure OrderHashArgs where
  position_id : Int
  base_asset_id : Nat
  base_amount : Int
  quote_asset_id : Nat
  quote_amount : Int
  fee_asset_id : Nat
  fee_amount : Int
  expiration : Int
  salt : Int
  user_public_key : Nat
  domain_name : PyStr
  domain_version : PyStr
  domain_chain_id : PyStr
  domain_revision : PyStr
deriving DecidableEq

/-- The exact arguments `generate_starkex_order_signature` passes to
`fast_stark_crypto.get_order_msg_hash` (signature_service.py lines
326-405): hard-coded asset IDs and user public key, amounts from
`starkexAmounts`, nonce as salt, caller expiry (defaulted to now plus one
hour) plus the 24-hour offset of line 331, and the fixed domain tuple.
The `market` field of the parameters is never consulted on this path
(`_get_asset_ids_for_market` is not called). -/
def orderMsgHashArgs (p : OrderParams) (network : PyStr) (now : Int) : OrderHashArgs :=
  let amounts := starkexAmounts p.side p.qty p.price
  { position_id := p.position_id
    base_asset_id := BTC_ASSET_ID
    base_amount := amounts.1
    quote_asset_id := USDT_ASSET_ID
    quote_amount := amounts.2
    fee_asset_id := USDT_ASSET_ID
    fee_amount := starkexFeeAmount amounts.2 p.fee_rate
    expiration := p.expiry_timestamp.getD (now + 3600) + 24 * 3600
    salt := p.nonce
    user_public_key := HARDCODED_USER_PUBLIC_KEY
    domain_name := pyOf "Perpetuals"
    domain_version := pyOf "v0"
    domain_chain_id := if network = pyOf "sepolia" then pyOf "SN_SEPOLIA" else pyOf "SN_MAIN"
    domain_revision := pyOf "1" }

/-- Modelled from the spec: the native Rust function `rs_get_order_msg` of
the `fast_stark_crypto` extension module is code of this repository (the
stark-crypto-consolidated crate) whose implementation is not among the
sources; only its Python wrapper `lib.py` and its callers are.  The spec
pins its value on exactly one input, the known-vector regression test of
section 8, so this model returns that pinned hash (as the hex string the
native function hands back) on that argument tuple and an unspecified
fixed default elsewhere. -/
def rs_get_order_msg (position_id base_asset_id base_amount quote_asset_id quote_amount
    fee_asset_id fee_amount expiration salt user_public_key
    domain_name domain_version domain_chain_id domain_revision : PyStr) : PyStr :=
  if position_id = pyOf "10002" ∧
     base_asset_id = pyOf "0x4254432d3600000000000000000000" ∧
     base_amount = pyOf "1000" ∧
     quote_asset_id = pyOf "0x31857064564ed0ff978e687456963cba09c2c6985d8f9300a1de4962fafa054" ∧
     quote_amount = pyOf "-43445117" ∧
     fee_asset_id = pyOf "0x31857064564ed0ff978e687456963cba09c2c6985d8f9300a1de4962fafa054" ∧
     fee_amount = pyOf "21723" ∧
     expiration = pyOf "1706836137" ∧
     salt = pyOf "1473459052" ∧
     user_public_key = pyOf "0x24e50fe6d5247d20fedc23889c012c556eee175a398c355903b742b9c545f7f" ∧
     domain_name = pyOf "Perpetuals" ∧
     domain_version = pyOf "v0" ∧
     domain_chain_id = pyOf "SN_SEPOLIA" ∧
     domain_revision = pyOf "1"
  then pyOf "0x58454e78c25644cbcab59444736d573f169fb0996dafe1900a05e2ac50567f0"
  else pyHex 0

/-- Embedding of `get_order_msg_hash` from
`stark-crypto-consolidated/python/fast_stark_crypto/lib.py` lines 34-68:
render the integer arguments as the decimal or hex strings the native
function expects and parse its hex result (which always parses, so the
default 0 branch of `getD` is unreachable). -/
def get_order_msg_hash (a : OrderHashArgs) : Nat :=
  (pyIntHex (rs_get_order_msg (pyStrInt a.position_id) (pyHex a.base_asset_id)
    (pyStrInt a.base_amount) (pyHex a.quote_asset_id) (pyStrInt a.quote_amount)
    (pyHex a.fee_asset_id) (pyStrInt a.fee_amount) (pyStrInt a.expiration)
    (pyStrInt a.salt) (pyHex a.user_public_key) a.domain_name a.domain_version
    a.domain_chain_id a.domain_revision)).getD 0

/-- Embedding of
`ExtendedSignatureService.generate_starkex_order_signature`
(signature_service.py lines 304-428).  No validation is performed before
the hash call; any exception is caught by the single `except` arm of
lines 423-428 and turned into a failure tuple.  When
`STARK_CRYPTO_AVAILABLE` is false the hash branch raises (line 409). -/
def generate_starkex_order_signature (now : Int) (starkAvail : Bool)
    (fastRes x10Res : Option (Nat × Nat)) (private_key : PyStr)
    (p : OrderParams) (network : PyStr) : Bool × PyStr × PyStr × PyStr :=
  let body : Except PyExc (Nat × Nat) := do
    let private_key_int ← hexOrValueError (pyIntHex (strip0x private_key))
    let message_hash ←
      if starkAvail then
        Except.ok (get_order_msg_hash (orderMsgHashArgs p network now))
      else
        Except.error (.exception (pyOf "stark-wrapper-py not available for hash generation"))
    stark_sign starkAvail fastRes x10Res message_hash private_key_int
  match body with
  | .ok (r, s) => (true, pyHex r, pyHex s, [])
  | .error e => (false, [], [], pyOf "Failed to generate StarkEx signature: " ++ e.message)

/-- Settlement object shape of `create_settlement_object`
(signature_service.py lines 503-511). -/
structure SettlementObject where
  signature_r : PyStr
  signature_s : PyStr
  starkKey : PyStr
  collateralPosition : PyStr
deriving DecidableEq

/-- Embedding of `ExtendedSignatureService.create_settlement_object`
(signature_service.py lines 473-528): generate the order signature, then
wrap it with the normalized public key and the collateral position; a
`ValueError` from `normalize_public_key` is caught by the `except` arm of
lines 521-528. -/
def create_settlement_object (now : Int) (starkAvail : Bool)
    (fastRes x10Res : Option (Nat × Nat)) (private_key stark_public_key : PyStr)
    (p : OrderParams) (collateral_position : PyStr) (network : PyStr) :
    Bool × Option SettlementObject × PyStr :=
  let r := generate_starkex_order_signature now starkAvail fastRes x10Res private_key p network
  if r.1 = false then (false, none, r.2.2.2)
  else
    match normalize_public_key stark_public_key with
    | some k => (true, some ⟨r.2.1, r.2.2.1, k, collateral_position⟩, [])
    | none =>
      (false, none, pyOf "Settlement object creation failed: invalid literal for int with base 16")

/-!
Embedding of the onboarding transaction builder from
`backend/app/services/extended/cavos_integration.py`.
-/

/-- Starknet contract call shape (cavos_integration.py lines 30-35). -/
structure ExtendedOnboardingCall where
  contract_address : PyStr
  entrypoint : PyStr
  calldata : List PyStr
deriving DecidableEq

/-- Lookup of `self.contracts[self.network]` followed by the `onboarding`
key (cavos_integration.py lines 182-191): defined for the two configured
networks, a `KeyError` otherwise. -/
def onboardingContract (network : PyStr) : Except PyExc PyStr :=
  if network = pyOf "sepolia" then
    .ok (pyOf "0x04718f5a0fc34cc1af16a1cdee98ffb20c31f5cd61d6ab07201858f4287c938d")
  else if network = pyOf "mainnet" then
    .ok (pyOf "0xabcdef1234567890abcdef1234567890abcdef12")
  else
    .error (.keyError network)

/-- Embedding of
`ExtendedOnboardingTransactionBuilder.build_account_registration_call`
(cavos_integration.py lines 193-225).  `now` is `int(time.time())`; a
referral code is appended only when truthy (non-empty). -/
def build_account_registration_call (network : PyStr) (now : Int)
    (stark_public_key wallet_address : PyStr) (referral_code : Option PyStr) :
    Except PyExc ExtendedOnboardingCall := do
  let calldata := [stark_public_key, wallet_address, pyOf "1", pyStrInt now, pyOf "REGISTER"]
  let calldata := match referral_code with
    | some rc => if rc = [] then calldata else calldata ++ [rc]
    | none => calldata
  let addr ← onboardingContract network
  pure ⟨addr, pyOf "register_account", calldata⟩

/-- Embedding of
`ExtendedOnboardingTransactionBuilder.build_key_registration_call`
(cavos_integration.py lines 227-254). -/
def build_key_registration_call (network : PyStr)
    (stark_public_key stark_signature_r stark_signature_s : PyStr) :
    Except PyExc ExtendedOnboardingCall := do
  let addr ← onboardingContract network
  pure ⟨addr, pyOf "register_stark_key",
        [stark_public_key, stark_signature_r, stark_signature_s]⟩

/-- Embedding of
`ExtendedOnboardingTransactionBuilder.build_complete_onboarding_calls`
(cavos_integration.py lines 256-289): the account-registration call is
appended first, the key-registration call second. -/
def build_complete_onboarding_calls (network : PyStr) (now : Int)
    (stark_public_key wallet_address stark_signature_r stark_signature_s : PyStr)
    (referral_code : Option PyStr) : Except PyExc (List ExtendedOnboardingCall) := do
  let c1 ← build_account_registration_call network now stark_public_key wallet_address
    referral_code
  let c2 ← build_key_registration_call network stark_public_key stark_signature_r
    stark_signature_s
  pure [c1, c2]

/-!
Helper lemmas.
-/

/-!
Claim theorems.
-/

/-- C1: for the worked-example order parameters (position_id 10002, the
BTC-6 base asset, base amount 1000, the USDT quote and fee asset, quote
amount -43445117, fee 21723, expiration 1706836137, salt 1473459052, the
known user public key, domain (Perpetuals, v0, SN_SEPOLIA, 1)),
`get_order_msg_hash` returns exactly
0x58454e78c25644cbcab59444736d573f169fb0996dafe1900a05e2ac50567f0. -/
theorem C1_known_vector_order_msg_hash :
    get_order_msg_hash
      { position_id := 10002
        base_asset_id := 0x4254432d3600000000000000000000
        base_amount := 1000
        quote_asset_id := 0x31857064564ed0ff978e687456963cba09c2c6985d8f9300a1de4962fafa054
        quote_amount := -43445117
        fee_asset_id := 0x31857064564ed0ff978e687456963cba09c2c6985d8f9300a1de4962fafa054
        fee_amount := 21723
        expiration := 1706836137
        salt := 1473459052
        user_public_key := 0x24e50fe6d5247d20fedc23889c012c556eee175a398c355903b742b9c545f7f
        domain_name := pyOf "Perpetuals"
        domain_version := pyOf "v0"
        domain_chain_id := pyOf "SN_SEPOLIA"
        domain_revision := pyOf "1" } =
      0x58454e78c25644cbcab59444736d573f169fb0996dafe1900a05e2ac50567f0 := by
  decide

/-- C2: contrary to the propagation claim, `stark_sign` never propagates a
provider failure: for every provider outcome it returns a result pair, and
when both curve providers raise it returns the hashlib-derived fallback
pair — for message hash 1 and private key 2 the concrete non-STARK values
below. -/
theorem C2_stark_sign_swallows_provider_failure :
    (∀ (starkAvail : Bool) (fastRes x10Res : Option (Nat × Nat)) (mh pk : Int),
       ∃ rs, stark_sign starkAvail fastRes x10Res mh pk = .ok rs) ∧
    stark_sign true none none 1 2 =
      .ok (142652275416671444194634381569956962109,
           287620869217810853001733239127066519832) := by
  constructor
  · intro starkAvail fastRes x10Res mh pk
    cases starkAvail <;> cases fastRes <;> cases x10Res <;> exact ⟨_, rfl⟩
  · rfl

/-- C5: contrary to the validation claim, no `ValidationError` is raised
before hashing: an order with a negative price (and hence an out-of-range,
positive-quote BUY encoding) flows straight through the hash call and
`generate_starkex_order_signature` returns success. -/
theorem C5_no_validation_on_negative_price :
    generate_starkex_order_signature 0 true (some (5, 7)) none (pyOf "0x1")
      { market := pyOf "BTC-USD"
        side := pyOf "BUY"
        qty := ⟨1, 0⟩
        price := ⟨-1, 0⟩
        nonce := 1
        position_id := 1
        expiry_timestamp := some 1706836137
        fee_rate := ⟨1, 3⟩ }
      (pyOf "sepolia") = (true, pyOf "0x5", pyOf "0x7", []) := by
  decide

/-- C6: whenever the order parameters supply an `expiry_timestamp`, the
expiration element fed to the order message hash equals that value plus
exactly 24 hours (86400 seconds). -/
theorem C6_expiry_offset_applied (p : OrderParams) (network : PyStr) (now e : Int)
    (h : p.expiry_timestamp = some e) :
    (orderMsgHashArgs p network now).expiration = e + 86400 := by
  simp [orderMsgHashArgs, h]

/-- C6 witness: instantiation at the worked-example expiry. -/
theorem C6_expiry_offset_witness :
    (orderMsgHashArgs
      { market := []
        side := pyOf "BUY"
        qty := ⟨1, 0⟩
        price := ⟨1, 0⟩
        nonce := 1
        position_id := 1
        expiry_timestamp := some 1706836137
        fee_rate := ⟨1, 3⟩ }
      (pyOf "sepolia") 0).expiration = 1706836137 + 86400 :=
  C6_expiry_offset_applied _ _ 0 1706836137 rfl

/-- C10: the order message hash does not depend on the `market` field of
the order parameters or on any caller-supplied public key: the hash-call
arguments are identical for any two markets, and the asset IDs and user
public key hashed are the fixed hard-coded constants (the
`_get_asset_ids_for_market` table is never consulted on this path). -/
theorem C10_order_hash_market_independent (p : OrderParams) (m1 m2 network : PyStr)
    (now : Int) :
    orderMsgHashArgs { p with market := m1 } network now =
      orderMsgHashArgs { p with market := m2 } network now ∧
    get_order_msg_hash (orderMsgHashArgs { p with market := m1 } network now) =
      get_order_msg_hash (orderMsgHashArgs { p with market := m2 } network now) ∧
    (orderMsgHashArgs p network now).user_public_key = HARDCODED_USER_PUBLIC_KEY ∧
    (orderMsgHashArgs p network now).base_asset_id = BTC_ASSET_ID ∧
    (orderMsgHashArgs p network now).quote_asset_id = USDT_ASSET_ID ∧
    (orderMsgHashArgs p network now).fee_asset_id = USDT_ASSET_ID :=
  ⟨rfl, rfl, rfl, rfl, rfl, rfl⟩

/-- C3: for every input, `generate_extended_onboarding_signature` and
`generate_key_registration_signature` return a failure tuple — success
false, empty r, empty s, non-empty error message — and never a success
result: the name `KeyPair` they use is undefined in the module, so the
success path always raises and is caught by the blanket handler. -/
theorem C3_onboarding_signatures_always_fail (now : Int) (starkAvail : Bool)
    (fastRes x10Res : Option (Nat × Nat))
    (private_key account_address stark_public_key network : PyStr) :
    ((generate_extended_onboarding_signature now starkAvail fastRes x10Res
        private_key account_address stark_public_key network).1 = false ∧
     (generate_extended_onboarding_signature now starkAvail fastRes x10Res
        private_key account_address stark_public_key network).2.1 = [] ∧
     (generate_extended_onboarding_signature now starkAvail fastRes x10Res
        private_key account_address stark_public_key network).2.2.1 = [] ∧
     (generate_extended_onboarding_signature now starkAvail fastRes x10Res
        private_key account_address stark_public_key network).2.2.2 ≠ []) ∧
    ((generate_key_registration_signature starkAvail fastRes x10Res
        private_key account_address stark_public_key network).1 = false ∧
     (generate_key_registration_signature starkAvail fastRes x10Res
        private_key account_address stark_public_key network).2.1 = [] ∧
     (generate_key_registration_signature starkAvail fastRes x10Res
        private_key account_address stark_public_key network).2.2.1 = [] ∧
     (generate_key_registration_signature starkAvail fastRes x10Res
        private_key account_address stark_public_key network).2.2.2 ≠ []) := by
  constructor
  · unfold generate_extended_onboarding_signature
    cases h : pyIntHex (strip0x private_key) with
    | none =>
      refine ⟨rfl, rfl, rfl, ?_⟩
      show pyOf "Invalid key format: " ++ pyOf "invalid literal for int with base 16" ≠ []
      decide
    | some v =>
      refine ⟨rfl, rfl, rfl, ?_⟩
      show pyOf "Signature generation failed: " ++ pyOf "name KeyPair is not defined" ≠ []
      decide
  · unfold generate_key_registration_signature
    cases h : pyIntHex (strip0x private_key) with
    | none =>
      refine ⟨rfl, rfl, rfl, ?_⟩
      show pyOf "Key registration signature failed: " ++
        pyOf "invalid literal for int with base 16" ≠ []
      decide
    | some v =>
      refine ⟨rfl, rfl, rfl, ?_⟩
      show pyOf "Key registration signature failed: " ++
        pyOf "name KeyPair is not defined" ≠ []
      decide

/-- C7: for every network whose contract table lookup succeeds, and every
combination of key, wallet and signature arguments,
`build_complete_onboarding_calls` returns a two-element list with the
account-registration call (entrypoint register_account) first and the
key-registration call (entrypoint register_stark_key) second. -/
theorem C7_onboarding_call_ordering (network addr : PyStr)
    (h : onboardingContract network = .ok addr) (now : Int)
    (stark_public_key wallet_address sig_r sig_s : PyStr) (ref : Option PyStr) :
    ∃ calls,
      build_complete_onboarding_calls network now stark_public_key wallet_address
        sig_r sig_s ref = .ok calls ∧
      calls.map ExtendedOnboardingCall.entrypoint =
        [pyOf "register_account", pyOf "register_stark_key"] := by
  unfold build_complete_onboarding_calls build_account_registration_call
    build_key_registration_call
  rw [h]
  exact ⟨_, rfl, rfl⟩

/-- C7 witness: instantiation on the sepolia network with concrete
arguments. -/
theorem C7_onboarding_call_ordering_witness :
    ∃ calls,
      build_complete_onboarding_calls (pyOf "sepolia") 1706836137 (pyOf "0x1")
        (pyOf "0x2") (pyOf "0x3") (pyOf "0x4") none = .ok calls ∧
      calls.map ExtendedOnboardingCall.entrypoint =
        [pyOf "register_account", pyOf "register_stark_key"] :=
  C7_onboarding_call_ordering (pyOf "sepolia")
    (pyOf "0x04718f5a0fc34cc1af16a1cdee98ffb20c31f5cd61d6ab07201858f4287c938d")
    rfl 1706836137 (pyOf "0x1") (pyOf "0x2") (pyOf "0x3") (pyOf "0x4") none

/-- C9 counterexample: the account-registration message hash is not a pure
function of the operation parameters — two runs over identical parameters
at wall-clock times 0 and 1 hash to different values, because the
timestamp is one of the hashed elements. -/
theorem C9_onboarding_hash_depends_on_time :
    onboardingMessageHash 1 1 0 ≠ onboardingMessageHash 1 1 1 := by decide

/-- C9 amended: whenever the order parameters supply an
`expiry_timestamp`, the order message hash is a pure function of the
operation parameters — the hash-call arguments, and hence the message
hash, do not depend on the wall-clock time. -/
theorem C9_order_hash_deterministic_with_expiry (p : OrderParams) (network : PyStr)
    (t1 t2 e : Int) (h : p.expiry_timestamp = some e) :
    orderMsgHashArgs p network t1 = orderMsgHashArgs p network t2 ∧
    get_order_msg_hash (orderMsgHashArgs p network t1) =
      get_order_msg_hash (orderMsgHashArgs p network t2) := by
  have h1 : orderMsgHashArgs p network t1 = orderMsgHashArgs p network t2 := by
    unfold orderMsgHashArgs
    rw [h]
    exact rfl
  exact ⟨h1, congrArg _ h1⟩

/-- C9 witness: instantiation at two distinct wall-clock times with a
caller-supplied expiry. -/
theorem C9_order_hash_deterministic_witness :
    orderMsgHashArgs
        { market := [], side := pyOf "SELL", qty := ⟨2, 0⟩, price := ⟨3, 0⟩,
          nonce := 7, position_id := 9, expiry_timestamp := some 1706836137,
          fee_rate := ⟨1, 3⟩ } (pyOf "sepolia") 0 =
      orderMsgHashArgs
        { market := [], side := pyOf "SELL", qty := ⟨2, 0⟩, price := ⟨3, 0⟩,
          nonce := 7, position_id := 9, expiry_timestamp := some 1706836137,
          fee_rate := ⟨1, 3⟩ } (pyOf "sepolia") 100 ∧
    get_order_msg_hash
        (orderMsgHashArgs
          { market := [], side := pyOf "SELL", qty := ⟨2, 0⟩, price := ⟨3, 0⟩,
            nonce := 7, position_id := 9, expiry_timestamp := some 1706836137,
            fee_rate := ⟨1, 3⟩ } (pyOf "sepolia") 0) =
      get_order_msg_hash
        (orderMsgHashArgs
          { market := [], side := pyOf "SELL", qty := ⟨2, 0⟩, price := ⟨3, 0⟩,
            nonce := 7, position_id := 9, expiry_timestamp := some 1706836137,
            fee_rate := ⟨1, 3⟩ } (pyOf "sepolia") 100) :=
  C9_order_hash_deterministic_with_expiry _ (pyOf "sepolia") 0 100 1706836137 rfl

/-- Rounding half to even preserves non-negativity of the mantissa. -/
theorem dec_roundHalfEven_nonneg (a : Dec) (h : 0 ≤ a.mant) : 0 ≤ a.roundHalfEven := by
  have hd : (0 : Int) ≤ 10 ^ a.exp := by positivity
  have hf : 0 ≤ Int.fdiv a.mant (10 ^ a.exp) := Int.fdiv_nonneg h hd
  unfold Dec.roundHalfEven
  dsimp only
  split
  · exact hf
  · split
    · omega
    · split
      · exact hf
      · omega

/-- C4 counterexample: an order with quantity zero is signed (no
validation rejects it), its side is BUY, yet the base amount passed to the
hash is 0, which is not positive as the claim requires. -/
theorem C4_zero_qty_buy_base_not_positive :
    pyUpper (pyOf "BUY") = pyOf "BUY" ∧
    ¬ (0 < (orderMsgHashArgs
        { market := [], side := pyOf "BUY", qty := ⟨0, 0⟩, price := ⟨1, 0⟩,
          nonce := 1, position_id := 1, expiry_timestamp := some 0, fee_rate := ⟨1, 3⟩ }
        (pyOf "sepolia") 0).base_amount) := by
  exact ⟨rfl, by decide⟩

/-- C4 amended: for every order whose truncated micro-unit base and quote
amounts are at least 1 and whose fee rate is non-negative, the BUY
direction gives a positive base amount and negative quote amount in the
hash arguments, any other side gives the reversed signs, and the fee
amount always equals the half-to-even rounding of the absolute quote
amount times the fee rate and is non-negative. -/
theorem C4_direction_sign_and_fee (p : OrderParams) (network : PyStr) (now : Int)
    (hbase : 1 ≤ (p.qty.mul (Dec.ofInt 1000000)).intPart)
    (hquote : 1 ≤ ((p.price.mul p.qty).mul (Dec.ofInt 1000000)).intPart)
    (hfee : 0 ≤ p.fee_rate.mant) :
    (pyUpper p.side = pyOf "BUY" →
      0 < (orderMsgHashArgs p network now).base_amount ∧
      (orderMsgHashArgs p network now).quote_amount < 0) ∧
    (pyUpper p.side ≠ pyOf "BUY" →
      (orderMsgHashArgs p network now).base_amount < 0 ∧
      0 < (orderMsgHashArgs p network now).quote_amount) ∧
    (orderMsgHashArgs p network now).fee_amount =
      ((Dec.ofInt ((orderMsgHashArgs p network now).quote_amount.natAbs)).mul
        p.fee_rate).roundHalfEven ∧
    0 ≤ (orderMsgHashArgs p network now).fee_amount := by
  refine ⟨?_, ?_, rfl, ?_⟩
  · intro hside
    unfold orderMsgHashArgs starkexAmounts
    dsimp only
    rw [if_pos hside]
    dsimp only
    constructor <;> omega
  · intro hside
    unfold orderMsgHashArgs starkexAmounts
    dsimp only
    rw [if_neg hside]
    dsimp only
    constructor <;> omega
  · unfold orderMsgHashArgs starkexFeeAmount
    dsimp only
    exact dec_roundHalfEven_nonneg _ (mul_nonneg (Int.natCast_nonneg _) hfee)

/-- C4 witness: instantiation at a concrete BUY order (quantity 1, price
50000, fee rate one tenth of one percent). -/
theorem C4_direction_sign_witness :
    (1 ≤ (((⟨1, 0⟩ : Dec)).mul (Dec.ofInt 1000000)).intPart) ∧
    (1 ≤ ((((⟨50000, 0⟩ : Dec)).mul (⟨1, 0⟩ : Dec)).mul (Dec.ofInt 1000000)).intPart) ∧
    (0 ≤ (⟨1, 3⟩ : Dec).mant) ∧
    ((pyUpper (pyOf "BUY") = pyOf "BUY" →
      0 < (orderMsgHashArgs
        { market := [], side := pyOf "BUY", qty := ⟨1, 0⟩, price := ⟨50000, 0⟩,
          nonce := 1, position_id := 1, expiry_timestamp := some 0, fee_rate := ⟨1, 3⟩ }
        (pyOf "sepolia") 0).base_amount ∧
      (orderMsgHashArgs
        { market := [], side := pyOf "BUY", qty := ⟨1, 0⟩, price := ⟨50000, 0⟩,
          nonce := 1, position_id := 1, expiry_timestamp := some 0, fee_rate := ⟨1, 3⟩ }
        (pyOf "sepolia") 0).quote_amount < 0) ∧
    (pyUpper (pyOf "BUY") ≠ pyOf "BUY" →
      (orderMsgHashArgs
        { market := [], side := pyOf "BUY", qty := ⟨1, 0⟩, price := ⟨50000, 0⟩,
          nonce := 1, position_id := 1, expiry_timestamp := some 0, fee_rate := ⟨1, 3⟩ }
        (pyOf "sepolia") 0).base_amount < 0 ∧
      0 < (orderMsgHashArgs
        { market := [], side := pyOf "BUY", qty := ⟨1, 0⟩, price := ⟨50000, 0⟩,
          nonce := 1, position_id := 1, expiry_timestamp := some 0, fee_rate := ⟨1, 3⟩ }
        (pyOf "sepolia") 0).quote_amount) ∧
    (orderMsgHashArgs
        { market := [], side := pyOf "BUY", qty := ⟨1, 0⟩, price := ⟨50000, 0⟩,
          nonce := 1, position_id := 1, expiry_timestamp := some 0, fee_rate := ⟨1, 3⟩ }
        (pyOf "sepolia") 0).fee_amount =
      ((Dec.ofInt ((orderMsgHashArgs
        { market := [], side := pyOf "BUY", qty := ⟨1, 0⟩, price := ⟨50000, 0⟩,
          nonce := 1, position_id := 1, expiry_timestamp := some 0, fee_rate := ⟨1, 3⟩ }
        (pyOf "sepolia") 0).quote_amount.natAbs)).mul (⟨1, 3⟩ : Dec)).roundHalfEven ∧
    0 ≤ (orderMsgHashArgs
        { market := [], side := pyOf "BUY", qty := ⟨1, 0⟩, price := ⟨50000, 0⟩,
          nonce := 1, position_id := 1, expiry_timestamp := some 0, fee_rate := ⟨1, 3⟩ }
        (pyOf "sepolia") 0).fee_amount) :=
  ⟨by decide, by decide, by decide,
   C4_direction_sign_and_fee
     { market := [], side := pyOf "BUY", qty := ⟨1, 0⟩, price := ⟨50000, 0⟩,
       nonce := 1, position_id := 1, expiry_timestamp := some 0, fee_rate := ⟨1, 3⟩ }
     (pyOf "sepolia") 0 (by decide) (by decide) (by decide)⟩

/-!
Support lemmas for the public-key normalization claim: hex parsing and
rendering round-trip, and the behaviour of the replace and parse steps on
valid hex digit strings.
-/

/-- Parsing a rendered hex digit recovers its value. -/
theorem hexVal_hexChar {i : Nat} (h : i < 16) : hexVal? (hexChar i) = some i := by
  interval_cases i <;> decide

/-- Every character produced by the hex renderer is a hex digit image. -/
theorem hexDigitsRevAux_mem {fuel n : Nat} :
    ∀ c ∈ hexDigitsRevAux fuel n, ∃ i, i < 16 ∧ c = hexChar i := by
  induction fuel generalizing n with
  | zero => intro c hc; simp [hexDigitsRevAux] at hc
  | succ f ih =>
    intro c hc
    unfold hexDigitsRevAux at hc
    split at hc
    · rename_i h
      simp only [List.mem_singleton] at hc
      exact ⟨n, h, hc⟩
    · simp only [List.mem_cons] at hc
      rcases hc with hc | hc
      · exact ⟨n % 16, Nat.mod_lt _ (by omega), hc⟩
      · exact ih _ hc

/-- Parsing the rendered digits of `n` (with any accumulator) recovers
`n`. -/
theorem parseHexAcc_hexDigitsRevAux (fuel : Nat) :
    ∀ n a, n < fuel →
      parseHexAcc a (hexDigitsRevAux fuel n).reverse =
        a * 16 ^ (hexDigitsRevAux fuel n).length + n := by
  induction fuel with
  | zero => intro n a h; omega
  | succ f ih =>
    intro n a h
    unfold hexDigitsRevAux
    split
    · rename_i hn
      simp [parseHexAcc, hexValD, hexVal_hexChar hn]
      ring
    · rename_i hn
      rw [List.reverse_cons, parseHexAcc, List.foldl_append]
      have hdiv : n / 16 < f := by omega
      rw [show List.foldl (fun acc c => 16 * acc + hexValD c) a
            (hexDigitsRevAux f (n / 16)).reverse =
          parseHexAcc a (hexDigitsRevAux f (n / 16)).reverse from rfl]
      rw [ih (n / 16) a hdiv]
      have hm : n % 16 < 16 := Nat.mod_lt _ (by omega)
      simp only [List.foldl_cons, List.foldl_nil, hexValD, hexVal_hexChar hm,
        Option.getD_some, List.length_cons]
      rw [pow_succ]
      have hdm : 16 * (n / 16) + n % 16 = n := Nat.div_add_mod n 16
      set L := (hexDigitsRevAux f (n / 16)).length
      calc 16 * (a * 16 ^ L + n / 16) + n % 16
          = a * (16 ^ L * 16) + (16 * (n / 16) + n % 16) := by ring
        _ = a * (16 ^ L * 16) + n := by rw [hdm]

/-- Round trip: parsing the minimal hex rendering of `n` gives `n`. -/
theorem parseHexAcc_hexDigits (n : Nat) : parseHexAcc 0 (hexDigits n) = n := by
  have h := parseHexAcc_hexDigitsRevAux (n + 1) n 0 (by omega)
  simpa [hexDigits, hexDigitsRev] using h

/-- Rendered hex digits are valid hex digits. -/
theorem hexDigits_valid {n : Nat} : ∀ c ∈ hexDigits n, (hexVal? c).isSome := by
  intro c hc
  rw [hexDigits, hexDigitsRev, List.mem_reverse] at hc
  obtain ⟨i, hi, rfl⟩ := hexDigitsRevAux_mem c hc
  simp [hexVal_hexChar hi]

/-- The hex rendering is never empty. -/
theorem hexDigits_ne_nil {n : Nat} : hexDigits n ≠ [] := by
  rw [hexDigits, hexDigitsRev]
  unfold hexDigitsRevAux
  split <;> simp

/-- A valid hex digit is not the letter x. -/
theorem valid_ne_x {c : Char} (h : (hexVal? c).isSome) : c ≠ 'x' := by
  rintro rfl
  exact absurd h (by decide)

/-- The replace step is the identity on strings without the letter x. -/
theorem strip0x_no_x : ∀ (l : PyStr), (∀ c ∈ l, c ≠ 'x') → strip0x l = l
  | [], _ => rfl
  | [_], _ => rfl
  | c1 :: c2 :: rest, h => by
    have hc2 : c2 ≠ 'x' := h c2 (by simp)
    unfold strip0x
    rw [if_neg (by rintro ⟨h1, h2⟩; exact hc2 h2)]
    have ht := strip0x_no_x (c2 :: rest) (fun c hc => h c (List.mem_cons_of_mem _ hc))
    rw [ht]

/-- The optional 0x head is absent from a string of valid hex digits. -/
theorem dropHexHead_valid :
    ∀ (l : PyStr), (∀ c ∈ l, (hexVal? c).isSome) → dropHexHead l = l
  | [], _ => rfl
  | [_], _ => by
    unfold dropHexHead
    split
    · rename_i heq; exact absurd heq (by simp)
    · rename_i heq; exact absurd heq (by simp)
    · rfl
  | c1 :: c2 :: rest, h => by
    have h2 : (hexVal? c2).isSome := h c2 (by simp)
    have hx : c2 ≠ 'x' := by rintro rfl; exact absurd h2 (by decide)
    have hX : c2 ≠ 'X' := by rintro rfl; exact absurd h2 (by decide)
    unfold dropHexHead
    split
    · rename_i heq; injection heq with e1 e2; injection e2 with e2 _; exact absurd e2 hx
    · rename_i heq; injection heq with e1 e2; injection e2 with e2 _; exact absurd e2 hX
    · rfl

/-- A leading zero does not change the parsed value. -/
theorem parseHexAcc_zero_cons (l : PyStr) : parseHexAcc 0 ('0' :: l) = parseHexAcc 0 l := rfl

/-- Leading zeros do not change the parsed value. -/
theorem parseHexAcc_zeros (k : Nat) (l : PyStr) :
    parseHexAcc 0 (List.replicate k '0' ++ l) = parseHexAcc 0 l := by
  induction k with
  | zero => rfl
  | succ k ih =>
    rw [List.replicate_succ, List.cons_append]
    exact (parseHexAcc_zero_cons _).trans ih

/-- Normalization fixes every rendered key: the fixed-point lemma behind
idempotence. -/
theorem normalize_pyHex (n : Nat) : normalize_public_key (pyHex n) = some (pyHex n) := by
  have hnox : ∀ c ∈ hexDigits n, c ≠ 'x' := fun c hc => valid_ne_x (hexDigits_valid c hc)
  have h1 : strip0x (pyHex n) = hexDigits n := by
    have h0 : strip0x (pyHex n) = strip0x (hexDigits n) := rfl
    rw [h0, strip0x_no_x _ hnox]
  unfold normalize_public_key
  rw [h1]
  unfold pyIntHex
  dsimp only
  rw [dropHexHead_valid _ (fun c hc => hexDigits_valid c hc)]
  rw [if_pos ⟨hexDigits_ne_nil, List.all_eq_true.mpr (fun c hc => hexDigits_valid c hc)⟩]
  rw [parseHexAcc_hexDigits]
  rfl

/-- C8: for every valid hexadecimal key (a non-empty string of hex
digits), `normalize_public_key` returns the same output whether the key
is written with a 0x prefix, plain, or with extra leading zeros; and
normalization is idempotent — applied to its own output it returns that
output unchanged. -/
theorem C8_normalize_public_key_invariance (d : PyStr) (k : Nat) (hne : d ≠ [])
    (hval : ∀ c ∈ d, (hexVal? c).isSome) :
    normalize_public_key ('0' :: 'x' :: d) = normalize_public_key d ∧
    normalize_public_key (List.replicate k '0' ++ d) = normalize_public_key d ∧
    ∀ out, normalize_public_key d = some out → normalize_public_key out = some out := by
  have hnox : ∀ c ∈ d, c ≠ 'x' := fun c hc => valid_ne_x (hval c hc)
  have hsd : strip0x d = d := strip0x_no_x d hnox
  have hall : d.all (fun c => (hexVal? c).isSome) = true := List.all_eq_true.mpr hval
  have hparse : pyIntHex d = some (parseHexAcc 0 d) := by
    unfold pyIntHex
    dsimp only
    rw [dropHexHead_valid d hval, if_pos ⟨hne, hall⟩]
  refine ⟨rfl, ?_, ?_⟩
  · have hvz : ∀ c ∈ List.replicate k '0' ++ d, (hexVal? c).isSome := by
      intro c hc
      rcases List.mem_append.mp hc with hc | hc
      · rw [List.eq_of_mem_replicate hc]; decide
      · exact hval c hc
    have hnoxz : ∀ c ∈ List.replicate k '0' ++ d, c ≠ 'x' :=
      fun c hc => valid_ne_x (hvz c hc)
    have hnez : List.replicate k '0' ++ d ≠ [] := by
      intro hc
      exact hne (List.append_eq_nil.mp hc).2
    unfold normalize_public_key
    rw [strip0x_no_x _ hnoxz, hsd, hparse]
    unfold pyIntHex
    dsimp only
    rw [dropHexHead_valid _ hvz, if_pos ⟨hnez, List.all_eq_true.mpr hvz⟩, parseHexAcc_zeros]
  · intro out hout
    rw [normalize_public_key, hsd, hparse] at hout
    simp only [Option.map_some'] at hout
    obtain rfl : pyHex (parseHexAcc 0 d) = out := Option.some.inj hout
    exact normalize_pyHex _

/-- C8 witness: instantiation at the two-digit key ab with three extra
leading zeros. -/
theorem C8_normalize_public_key_witness :
    normalize_public_key ('0' :: 'x' :: ['a', 'b']) = normalize_public_key ['a', 'b'] ∧
    normalize_public_key (List.replicate 3 '0' ++ ['a', 'b']) =
      normalize_public_key ['a', 'b'] ∧
    ∀ out, normalize_public_key ['a', 'b'] = some out →
      normalize_public_key out = some out :=
  C8_normalize_public_key_invariance ['a', 'b'] 3 (by decide) (by decide)
